import Mathlib

/-!
Shallow embedding of the containerfs datanode request-processing core
(src/datanode/server_pkg_op.go).

Each Go handler becomes a pure Lean function.  External collaborators
(the extent/blob storage engines, the connection, the buffer pool, the
partition space) are represented by oracle arguments giving the outcome
of each external call and by explicit effect lists in the results:
`storeOps` records the store operations a handler invoked,
`diskErrRecords` records each call to `addDiskErrs`, `poolPuts` counts
calls to `proto.Buffers.Put`, and frames record each `WriteToConn`.
Formatted error messages (built in Go with `fmt.Errorf` and
`errors.Annotatef`) are modelled structurally: the `DNErr` value carries
exactly the data the format string embeds.
-/

namespace Containerfs

/-- Store mode carried on a packet.  The Go switches compare against the
constants `proto.BlobStoreMode` and `proto.ExtentStoreMode`; any other
value falls through the switches, which `other` stands for. -/
inductive StoreMode
  | blob
  | extent
  | other
deriving DecidableEq

/-- Opcodes that the modelled handlers inspect.  `handleWrite` compares
against `proto.OpWrite` and `handleDeleteDataPartition` against
`proto.OpDeleteDataPartition`; the remaining constructors keep the
dispatcher surface nominal. -/
inductive Opcode
  | opCreateFile
  | opWrite
  | opRead
  | opStreamRead
  | opMarkDelete
  | opDeleteDataPartition
  | otherOp (n : Nat)
deriving DecidableEq

/-- Partition status; the handlers only test equality with
`proto.ReadOnly`. -/
inductive PartitionStatus
  | readWrite
  | readOnly
deriving DecidableEq

/-- The slice of partition state the handlers in this file consult:
`pkg.DataPartition.Status()` and `pkg.DataPartition.Available()`. -/
structure DataPartitionState where
  status : PartitionStatus
  available : Int
deriving DecidableEq

/-- Log/action keys passed to `PackErrorBody` (the Go constants
`LogCreateFile`, `LogWrite`, ..., defined elsewhere in the datanode
package; their string values are irrelevant, only their identity). -/
inductive ActionKey
  | logCreateFile
  | logWrite
  | logMarkDel
  | logRead
  | logGetWm
  | logGetAllWm
  | logCompactBlobFile
  | logRepair
  | actionStreamRead
  | actionWriteToCli
  | actionFollowerRequireBlobFileRepairCmd
  | actionGetDataPartitionMetrics
deriving DecidableEq

def LogCreateFile : ActionKey := ActionKey.logCreateFile

def LogWrite : ActionKey := ActionKey.logWrite

def LogMarkDel : ActionKey := ActionKey.logMarkDel

def LogRead : ActionKey := ActionKey.logRead

def LogGetWm : ActionKey := ActionKey.logGetWm

def ActionStreamRead : ActionKey := ActionKey.actionStreamRead

def ActionFollowerRequireBlobFileRepairCmd : ActionKey :=
  ActionKey.actionFollowerRequireBlobFileRepairCmd

/-- The repair-read task decoded from the packet payload
(`RepairBlobFileTask` with fields `BlobFileId`, `StartObj`, `EndObj`). -/
structure RepairBlobFileTask where
  blobFileId : Nat
  startObj : Nat
  endObj : Nat
deriving DecidableEq

/-- Error values produced by the handlers.  Go formats errors into
strings; here each formatted message is modelled by a constructor
carrying the data the format string embeds.  `annotated` models one
application of `errors.Annotatef` (the note text is log detail and is
not modelled).  `repairShort` models the message
`handleBlobFileRepairRead Recive RepairTask(%v) but localOid(%v)`,
which embeds the task description and the computed local oid. -/
inductive DNErr
  | partitionReadOnly
  | noSpace
  | storeTypeMismatch
  | engine (msg : String)
  | decodeFail (msg : String)
  | repairShort (task : RepairBlobFileTask) (localOid : Nat)
  | annotated (e : DNErr)
deriving DecidableEq

/-- The reply a handler leaves in the packet: `PackOkReply`,
`PackOkReadReply`, `PackOkWithBody`, `PackErrorBody`, or no packing at
all (the repair-read success path delegates the reply to `syncData`). -/
inductive Reply
  | ok
  | okRead
  | okBody (body : List Nat)
  | errorBody (action : ActionKey) (msg : DNErr)
  | noReply
deriving DecidableEq

/-- Truncation to 32 bits, for the Go conversions `uint32(x)`. -/
def u32 (n : Nat) : Nat := n % 2 ^ 32

/-- The packet fields the modelled handlers read.  `data` is the payload
byte slice, `size` the `Size` field (a `uint32` in Go); the data-model
invariant is that `size` equals the length of the live payload. -/
structure Packet where
  opcode : Opcode
  storeMode : StoreMode
  partitionID : Nat
  fileID : Nat
  offset : Int
  size : Nat
  data : List Nat
  crc : Nat
deriving DecidableEq

/-- Direction flag passed to `addDiskErrs`. -/
inductive Flag
  | writeFlag
  | readFlag
deriving DecidableEq

def WriteFlag : Flag := Flag.writeFlag

def ReadFlag : Flag := Flag.readFlag

/-- One recording of an operation outcome into the owning disk's
per-(partition, direction) error counter. -/
structure DiskErrRecord where
  partitionID : Nat
  flag : Flag
  outcome : Option String
deriving DecidableEq

/-- Modelled from the spec: `addDiskErrs` lives outside this file
(elsewhere in the datanode package); per the spec it records the
operation's outcome (success or the specific error) into the owning
disk's per-(partition, direction) error counter.  Here it is the
singleton recording produced by one call. -/
def addDiskErrs (partitionID : Nat) (err : Option String) (flag : Flag) :
    List DiskErrRecord :=
  [⟨partitionID, flag, err⟩]

/-- Store operations a handler can invoke on the mode-selected engine,
with the arguments the Go code passes. -/
inductive StoreOp
  | createExtent (fileID ino : Nat) (flag : Bool)
  | blobWrite (blobFileId : Nat) (offset : Int) (size : Nat) (data : List Nat) (crc : Nat)
  | extentWrite (fileID : Nat) (offset : Int) (size : Nat) (data : List Nat) (crc : Nat)
  | blobRead (blobFileId : Nat) (offset : Int) (size : Nat)
  | extentRead (fileID : Nat) (offset : Int) (size : Nat)
  | blobMarkDelete (blobFileId : Nat) (offset : Int) (size : Nat)
  | extentMarkDelete (fileID : Nat)
  | blobGetWatermark (fileID : Nat)
  | extentGetWatermark (fileID : Nat) (reload : Bool)
deriving DecidableEq

/-- Effects of one non-streaming handler invocation: the reply packed
into the packet, the store operations invoked, the `addDiskErrs`
recordings, and the number of `proto.Buffers.Put` calls. -/
structure HandlerResult where
  reply : Reply
  storeOps : List StoreOp
  diskErrRecords : List DiskErrRecord
  poolPuts : Nat
deriving DecidableEq

/-- `binary.BigEndian.Uint64` over a byte list (most significant byte
first); the callers pass exactly 8 bytes. -/
def beUint64 (bs : List Nat) : Nat :=
  bs.foldl (fun acc b => acc * 256 + b % 256) 0

/-- The deferred reply packing of `handleCreateFile`:
`PackErrorBody(LogCreateFile, Annotatef(err))` on error, else
`PackOkReply`. -/
def createReply (res : Option String) : Reply :=
  match res with
  | Option.none => Reply.ok
  | some e => Reply.errorBody LogCreateFile (DNErr.annotated (DNErr.engine e))

/-- `handleCreateFile` (src/datanode/server_pkg_op.go:108).  `createRes`
is the outcome of `GetExtentStore().Create` when that call is made. -/
def handleCreateFile (p : DataPartitionState) (pkg : Packet)
    (createRes : Option String) : HandlerResult :=
  if p.status = PartitionStatus.readOnly then
    ⟨Reply.errorBody LogCreateFile (DNErr.annotated DNErr.partitionReadOnly), [], [], 0⟩
  else if p.available ≤ 0 then
    ⟨Reply.errorBody LogCreateFile (DNErr.annotated DNErr.noSpace), [], [], 0⟩
  else
    match pkg.storeMode with
    | StoreMode.blob =>
        ⟨Reply.errorBody LogCreateFile
          (DNErr.annotated (DNErr.annotated DNErr.storeTypeMismatch)), [], [], 0⟩
    | StoreMode.extent =>
        let ino : Nat :=
          if 8 ≤ pkg.data.length ∧ 8 ≤ pkg.size then beUint64 (pkg.data.take 8) else 0
        ⟨createReply createRes, [StoreOp.createExtent pkg.fileID ino false], [], 0⟩
    | StoreMode.other => ⟨Reply.ok, [], [], 0⟩

/-- The deferred reply packing of `handleWrite`. -/
def writeReply (res : Option String) : Reply :=
  match res with
  | Option.none => Reply.ok
  | some e => Reply.errorBody LogWrite (DNErr.annotated (DNErr.engine e))

/-- `handleWrite` (src/datanode/server_pkg_op.go:301).  `blockSize`
models the constant `util.BlockSize`; `writeRes` is the outcome of the
mode-selected store `Write` when that call is made. -/
def handleWrite (blockSize : Nat) (p : DataPartitionState) (pkg : Packet)
    (writeRes : Option String) : HandlerResult :=
  if p.status = PartitionStatus.readOnly then
    ⟨Reply.errorBody LogWrite (DNErr.annotated DNErr.partitionReadOnly), [], [], 0⟩
  else if p.available ≤ 0 then
    ⟨Reply.errorBody LogWrite (DNErr.annotated DNErr.noSpace), [], [], 0⟩
  else
    match pkg.storeMode with
    | StoreMode.blob =>
        ⟨writeReply writeRes,
         [StoreOp.blobWrite (u32 pkg.fileID) pkg.offset pkg.size pkg.data pkg.crc],
         addDiskErrs pkg.partitionID writeRes WriteFlag, 0⟩
    | StoreMode.extent =>
        ⟨writeReply writeRes,
         [StoreOp.extentWrite pkg.fileID pkg.offset pkg.size pkg.data pkg.crc],
         addDiskErrs pkg.partitionID writeRes WriteFlag,
         if writeRes = Option.none ∧ pkg.opcode = Opcode.opWrite ∧ pkg.size = blockSize
         then 1 else 0⟩
    | StoreMode.other => ⟨Reply.ok, [], [], 0⟩

/-- The reply packing of `handleRead` (no annotation on the error). -/
def readReply (res : Option String) : Reply :=
  match res with
  | Option.none => Reply.okRead
  | some e => Reply.errorBody LogRead (DNErr.engine e)

/-- `handleRead` (src/datanode/server_pkg_op.go:334).  `readRes` is the
outcome of the mode-selected store `Read`.  The returned checksum and
the filled buffer are engine outputs and are not modelled. -/
def handleRead (p : DataPartitionState) (pkg : Packet)
    (readRes : Option String) : HandlerResult :=
  match pkg.storeMode with
  | StoreMode.blob =>
      ⟨readReply readRes, [StoreOp.blobRead (u32 pkg.fileID) pkg.offset pkg.size],
       addDiskErrs pkg.partitionID readRes ReadFlag, 0⟩
  | StoreMode.extent =>
      ⟨readReply readRes, [StoreOp.extentRead pkg.fileID pkg.offset pkg.size],
       addDiskErrs pkg.partitionID readRes ReadFlag, 0⟩
  | StoreMode.other => ⟨Reply.okRead, [], [], 0⟩

/-- The reply packing of `handleMarkDelete`. -/
def markDeleteReply (res : Option String) : Reply :=
  match res with
  | Option.none => Reply.ok
  | some e => Reply.errorBody LogMarkDel (DNErr.annotated (DNErr.engine e))

/-- `handleMarkDelete` (src/datanode/server_pkg_op.go:282).  `delRes` is
the outcome of the mode-selected store `MarkDelete`. -/
def handleMarkDelete (p : DataPartitionState) (pkg : Packet)
    (delRes : Option String) : HandlerResult :=
  match pkg.storeMode with
  | StoreMode.blob =>
      ⟨markDeleteReply delRes,
       [StoreOp.blobMarkDelete (u32 pkg.fileID) pkg.offset pkg.size], [], 0⟩
  | StoreMode.extent =>
      ⟨markDeleteReply delRes, [StoreOp.extentMarkDelete pkg.fileID], [], 0⟩
  | StoreMode.other => ⟨Reply.ok, [], [], 0⟩

/-- `json.Marshal` of a nil `*storage.FileInfo`, the body produced on the
store-mode fall-through of `handleGetWatermark`: the bytes of "null". -/
def jsonNullBytes : List Nat := [110, 117, 108, 108]

/-- The reply packing of `handleGetWatermark`: the oracle gives either
the store error or the marshalled watermark body. -/
def watermarkReply (res : Except String (List Nat)) : Reply :=
  match res with
  | Except.error e => Reply.errorBody LogGetWm (DNErr.annotated (DNErr.engine e))
  | Except.ok body => Reply.okBody body

/-- `handleGetWatermark` (src/datanode/server_pkg_op.go:405).  `wmRes`
combines the outcome of the store `GetWatermark` call and the JSON
marshalling of the returned file info. -/
def handleGetWatermark (p : DataPartitionState) (pkg : Packet)
    (wmRes : Except String (List Nat)) : HandlerResult :=
  match pkg.storeMode with
  | StoreMode.blob =>
      ⟨watermarkReply wmRes, [StoreOp.blobGetWatermark pkg.fileID], [], 0⟩
  | StoreMode.extent =>
      ⟨watermarkReply wmRes, [StoreOp.extentGetWatermark pkg.fileID false], [], 0⟩
  | StoreMode.other => ⟨Reply.okBody jsonNullBytes, [], [], 0⟩

/-- One frame written to the connection by the stream-read loop: either
a data frame (the packet with `Size = currReadSize`, `ResultCode = OpOk`
at the given read offset) or the terminal error frame packed by
`PackErrorBody(ActionStreamRead, err)`. -/
inductive Frame
  | data (offset : Int) (size : Nat)
  | err (action : ActionKey) (msg : DNErr)
deriving DecidableEq

/-- Payload size of a frame (0 for the error frame, whose payload is the
message text). -/
def frameSize : Frame → Nat
  | Frame.data _ n => n
  | Frame.err _ _ => 0

/-- Whether a frame is a data frame. -/
def frameIsData : Frame → Bool
  | Frame.data _ _ => true
  | Frame.err _ _ => false

/-- Effects of one stream-read execution: every `WriteToConn` call in
order (`attempts`), the successfully transmitted ones (`sent`), the
buffer-pool checkouts and returns, and whether the handler called
`connect.Close()`. -/
structure StreamResult where
  attempts : List Frame
  sent : List Frame
  poolGets : Nat
  poolPuts : Nat
  connClosed : Bool
deriving DecidableEq

/-- The loop of `handleStreamRead` (src/datanode/server_pkg_op.go:363).
`C` models the constant `util.ReadBlockSize` (positive; `hC` is the
termination bound).  `readRes offset size` is the outcome of
`store.Read` at that position, `writeOk k` whether the k-th
`WriteToConn` call succeeds.  Per the source: a buffer is taken from
`proto.Buffers` exactly when `currReadSize = C` (else freshly
allocated); on read error the error frame is written and the loop
returns (without `Close`); on failed write of a data frame the
connection is closed and the loop returns; on successful write of a
data frame the pooled buffer (when pooled) is returned and the loop
continues with the remaining size. -/
def streamLoop (C : Nat) (hC : 0 < C) (readRes : Int → Nat → Option String)
    (writeOk : Nat → Bool) (needReplySize : Nat) (offset : Int) (attempt : Nat) :
    StreamResult :=
  if h : needReplySize = 0 then ⟨[], [], 0, 0, false⟩
  else
    match readRes offset (min needReplySize C) with
    | some e =>
        if writeOk attempt then
          ⟨[Frame.err ActionStreamRead (DNErr.engine e)],
           [Frame.err ActionStreamRead (DNErr.engine e)],
           if min needReplySize C = C then 1 else 0, 0, false⟩
        else
          ⟨[Frame.err ActionStreamRead (DNErr.engine e)], [],
           if min needReplySize C = C then 1 else 0, 0, false⟩
    | Option.none =>
        if writeOk attempt then
          let rest := streamLoop C hC readRes writeOk
              (needReplySize - min needReplySize C)
              (offset + (min needReplySize C : Int)) (attempt + 1)
          ⟨Frame.data offset (min needReplySize C) :: rest.attempts,
           Frame.data offset (min needReplySize C) :: rest.sent,
           (if min needReplySize C = C then 1 else 0) + rest.poolGets,
           (if min needReplySize C = C then 1 else 0) + rest.poolPuts,
           rest.connClosed⟩
        else ⟨[Frame.data offset (min needReplySize C)], [],
          if min needReplySize C = C then 1 else 0, 0, true⟩
termination_by needReplySize
decreasing_by omega

/-- `handleStreamRead` (src/datanode/server_pkg_op.go:355):
`needReplySize := request.Size`, `offset := request.Offset`, then the
loop. -/
def handleStreamRead (C : Nat) (hC : 0 < C) (readRes : Int → Nat → Option String)
    (writeOk : Nat → Bool) (request : Packet) : StreamResult :=
  streamLoop C hC readRes writeOk request.size request.offset 0

/-- The frame sequence the stream-read loop produces when every store
read and every connection write succeeds (reference sequence used to
state the chunking properties). -/
def streamAllOkFrames (C : Nat) (hC : 0 < C) (offset : Int) (S : Nat) : List Frame :=
  if h : S = 0 then []
  else
    Frame.data offset (min S C) ::
      streamAllOkFrames C hC (offset + (min S C : Int)) (S - min S C)
termination_by S
decreasing_by omega

/-- Number of full-block frames in a frame list: exactly the frames for
which the loop took (and, on the success path, returned) a pooled
buffer. -/
def countFull (C : Nat) : List Frame → Nat
  | [] => 0
  | f :: rest => (if frameSize f = C then 1 else 0) + countFull C rest

/-- Effects of `handleBlobFileRepairRead`: the reply packed into the
packet (`noReply` when `syncData` takes over the connection) and the
`syncData` invocations with their `(blobfileID, startObj, endObj)`
arguments. -/
structure RepairReadResult where
  reply : Reply
  syncDataCalls : List (Nat × Nat × Nat)
deriving DecidableEq

/-- `handleBlobFileRepairRead` (src/datanode/server_pkg_op.go:529).
`decoded` is the result of `json.Unmarshal` of the payload into a
`RepairBlobFileTask`; `getLastOid` is `GetBlobStore().GetLastOid` (its
error return is discarded by the source, which overwrites `err` on the
next assignment); `syncRes` is the outcome of `dp.syncData`. -/
def handleBlobFileRepairRead (decoded : Except String RepairBlobFileTask)
    (getLastOid : Nat → Nat) (syncRes : Option String) : RepairReadResult :=
  match decoded with
  | Except.error e =>
      ⟨Reply.errorBody ActionFollowerRequireBlobFileRepairCmd
        (DNErr.annotated (DNErr.decodeFail e)), []⟩
  | Except.ok task =>
      let blobfileID := u32 task.blobFileId
      let localOid := getLastOid blobfileID
      if localOid < task.endObj then
        ⟨Reply.errorBody ActionFollowerRequireBlobFileRepairCmd
          (DNErr.annotated (DNErr.repairShort task localOid)), []⟩
      else
        match syncRes with
        | Option.none => ⟨Reply.noReply, [(blobfileID, task.startObj, localOid)]⟩
        | some e =>
            ⟨Reply.errorBody ActionFollowerRequireBlobFileRepairCmd
              (DNErr.annotated (DNErr.engine e)),
             [(blobfileID, task.startObj, localOid)]⟩

/-- The embedded request of a `DeleteDataPartition` admin task
(`proto.DeleteDataPartitionRequest`). -/
structure DeleteDataPartitionRequest where
  partitionId : Nat
deriving DecidableEq

/-- The admin-task envelope as `handleDeleteDataPartition` consumes it:
the embedded opcode and the result of decoding the embedded request
(`none` models a `json.Unmarshal` failure). -/
structure AdminTask where
  opCode : Opcode
  request : Option DeleteDataPartitionRequest
deriving DecidableEq

/-- Status of the asynchronous response reported to the master
(`proto.TaskSuccess` / `proto.TaskFail`). -/
inductive TaskStatus
  | success
  | fail
deriving DecidableEq

/-- The node's partition space, as the set of resident partition ids. -/
structure SpaceState where
  partitions : List Nat
deriving DecidableEq

/-- Modelled from the spec: `space.DeletePartition` lives outside this
file (in the partition-space code); per the spec it removes the
partition from the node's partition space unconditionally, with no
existence check and no error return. -/
def SpaceState.deletePartition (sp : SpaceState) (id : Nat) : SpaceState :=
  ⟨sp.partitions.filter (fun x => x ≠ id)⟩

/-- Effects of `handleDeleteDataPartition`: the synchronous reply to the
sender, the partition space afterwards, and the status and partition id
carried by the asynchronous response to the master. -/
structure DeleteDPResult where
  syncReply : Reply
  space : SpaceState
  respStatus : TaskStatus
  respPartitionId : Nat
deriving DecidableEq

/-- `handleDeleteDataPartition` (src/datanode/server_pkg_op.go:212).
`PackOkReply` is called before any branching, so the synchronous reply
is `ok` on every path; the response status is `TaskSuccess` exactly when
the embedded opcode matches and the embedded request decodes. -/
def handleDeleteDataPartition (sp : SpaceState) (task : AdminTask) : DeleteDPResult :=
  if task.opCode = Opcode.opDeleteDataPartition then
    match task.request with
    | Option.none => ⟨Reply.ok, sp, TaskStatus.fail, 0⟩
    | some r =>
        ⟨Reply.ok, sp.deletePartition (u32 r.partitionId), TaskStatus.success,
         r.partitionId⟩
  else ⟨Reply.ok, sp, TaskStatus.fail, 0⟩

/-- The packet fields the dispatcher instrumentation manipulates:
`Size`, `Data`, and whether the packed reply is an error pack. -/
structure OperateState where
  size : Nat
  data : List Nat
  isErrPack : Bool
deriving DecidableEq

/-- Observables of one `operatePacket` dispatch: the packet state when
control returns to the caller, the bytes used to build the error
diagnostic (when erroring), and the value of `Size` at the moment the
latency log line is computed. -/
structure OperateOutcome where
  final : OperateState
  errText : Option (List Nat)
  logSize : Nat
deriving DecidableEq

/-- `operatePacket` (src/datanode/server_pkg_op.go:38) restricted to its
size-snapshot/restore discipline.  The opcode switch is abstracted as
`handler` (which also covers the unknown-opcode error pack).  The
deferred block runs on every exit path of the handler: it snapshots the
post-handler size, restores `Size` to the pre-handler value, extracts
the error text as `Data[:resultSize]` when the reply is an error pack,
computes the log line with the restored size, and finally sets `Size`
back to the post-handler value. -/
def operatePacket (handler : OperateState → OperateState) (pkg : OperateState) :
    OperateOutcome :=
  let orgSize := pkg.size
  let afterHandler := handler pkg
  let resultSize := afterHandler.size
  let restored : OperateState := { afterHandler with size := orgSize }
  let errText : Option (List Nat) :=
    if restored.isErrPack then some (restored.data.take resultSize) else Option.none
  let logSize := restored.size
  let final : OperateState := { restored with size := resultSize }
  ⟨final, errText, logSize⟩

/-- C6: for every dispatched packet, `operatePacket` snapshots the
packet size before the handler runs; the error text (when the reply is
an error pack) is extracted from the post-handler data using the
post-handler size; the log line is computed with the size field holding
the pre-handler value; and when control returns to the caller the size
field equals the true post-handler reply size (data and error flag
untouched).  The deferred block encoding this runs on every exit path. -/
theorem operatePacket_size_discipline (handler : OperateState → OperateState)
    (pkg : OperateState) :
    (operatePacket handler pkg).final.size = (handler pkg).size ∧
    (operatePacket handler pkg).final.data = (handler pkg).data ∧
    (operatePacket handler pkg).final.isErrPack = (handler pkg).isErrPack ∧
    (operatePacket handler pkg).logSize = pkg.size ∧
    (operatePacket handler pkg).errText =
      (if (handler pkg).isErrPack then
        some ((handler pkg).data.take (handler pkg).size)
      else Option.none) :=
  ⟨rfl, rfl, rfl, rfl, rfl⟩

/-- C2: Create and Write fail with `PartitionReadOnly` on a ReadOnly
partition, and with `NoSpace` when (not ReadOnly and) available
capacity is at most 0, in both cases invoking no store operation and
recording nothing; Read, MarkDelete and the watermark query consult
neither the status nor the capacity (their results are independent of
the partition state), still invoke the store operation for a known
store mode, and still succeed on a successful engine outcome. -/
theorem partition_admission_gating (p p2 : DataPartitionState) (pkg : Packet)
    (blockSize : Nat) (res : Option String) (wm : Except String (List Nat))
    (body : List Nat) :
    (p.status = PartitionStatus.readOnly →
      (handleCreateFile p pkg res).reply =
          Reply.errorBody LogCreateFile (DNErr.annotated DNErr.partitionReadOnly) ∧
      (handleCreateFile p pkg res).storeOps = [] ∧
      (handleWrite blockSize p pkg res).reply =
          Reply.errorBody LogWrite (DNErr.annotated DNErr.partitionReadOnly) ∧
      (handleWrite blockSize p pkg res).storeOps = [] ∧
      (handleWrite blockSize p pkg res).diskErrRecords = []) ∧
    (p.status ≠ PartitionStatus.readOnly → p.available ≤ 0 →
      (handleCreateFile p pkg res).reply =
          Reply.errorBody LogCreateFile (DNErr.annotated DNErr.noSpace) ∧
      (handleCreateFile p pkg res).storeOps = [] ∧
      (handleWrite blockSize p pkg res).reply =
          Reply.errorBody LogWrite (DNErr.annotated DNErr.noSpace) ∧
      (handleWrite blockSize p pkg res).storeOps = [] ∧
      (handleWrite blockSize p pkg res).diskErrRecords = []) ∧
    (handleRead p pkg res = handleRead p2 pkg res ∧
      handleMarkDelete p pkg res = handleMarkDelete p2 pkg res ∧
      handleGetWatermark p pkg wm = handleGetWatermark p2 pkg wm) ∧
    (pkg.storeMode = StoreMode.blob ∨ pkg.storeMode = StoreMode.extent →
      (handleRead p pkg res).storeOps ≠ [] ∧
      (handleMarkDelete p pkg res).storeOps ≠ [] ∧
      (handleGetWatermark p pkg wm).storeOps ≠ []) ∧
    ((handleRead p pkg Option.none).reply = Reply.okRead ∧
      (handleMarkDelete p pkg Option.none).reply = Reply.ok ∧
      (pkg.storeMode = StoreMode.blob ∨ pkg.storeMode = StoreMode.extent →
        (handleGetWatermark p pkg (Except.ok body)).reply = Reply.okBody body)) := by
  refine ⟨?_, ?_, ⟨rfl, rfl, rfl⟩, ?_, ?_⟩
  · intro h
    simp [handleCreateFile, handleWrite, h]
  · intro h1 h2
    simp [handleCreateFile, handleWrite, h1, h2]
  · intro h
    rcases h with h | h <;>
      simp [handleRead, handleMarkDelete, handleGetWatermark, h]
  · cases hm : pkg.storeMode <;>
      simp [handleRead, handleMarkDelete, handleGetWatermark, readReply,
        markDeleteReply, watermarkReply, hm]

/-- Witness for C2 at a concrete ReadOnly partition. -/
theorem partition_admission_gating_witness :
    (handleCreateFile ⟨PartitionStatus.readOnly, 7⟩
        ⟨Opcode.opCreateFile, StoreMode.extent, 1, 2, 0, 0, [], 0⟩
        Option.none).storeOps = [] := by
  have h := partition_admission_gating ⟨PartitionStatus.readOnly, 7⟩
      ⟨PartitionStatus.readWrite, 7⟩
      ⟨Opcode.opCreateFile, StoreMode.extent, 1, 2, 0, 0, [], 0⟩ 4 Option.none
      (Except.ok []) []
  exact (h.1 rfl).2.1

/-- C7 (amended): a Write that passes both admission checks and whose
store mode is Blob or Extent records its outcome into the disk error
counter exactly once; a Write rejected by the ReadOnly or no-space
admission check, or whose store mode is neither Blob nor Extent,
records nothing. -/
theorem handleWrite_outcome_recording (blockSize : Nat) (p : DataPartitionState)
    (pkg : Packet) (writeRes : Option String) :
    (p.status ≠ PartitionStatus.readOnly → 0 < p.available →
      (pkg.storeMode = StoreMode.blob ∨ pkg.storeMode = StoreMode.extent) →
      (handleWrite blockSize p pkg writeRes).diskErrRecords =
        [⟨pkg.partitionID, WriteFlag, writeRes⟩]) ∧
    (p.status = PartitionStatus.readOnly ∨ p.available ≤ 0 ∨
        pkg.storeMode = StoreMode.other →
      (handleWrite blockSize p pkg writeRes).diskErrRecords = []) := by
  constructor
  · intro h1 h2 h3
    have hav : ¬ p.available ≤ 0 := by omega
    rcases h3 with h | h <;>
      simp [handleWrite, h1, hav, h, addDiskErrs, WriteFlag]
  · intro h
    rcases h with h | h | h
    · simp [handleWrite, h]
    · by_cases hro : p.status = PartitionStatus.readOnly
      · simp [handleWrite, hro]
      · simp [handleWrite, hro, h]
    · by_cases hro : p.status = PartitionStatus.readOnly
      · simp [handleWrite, hro]
      · by_cases hav : p.available ≤ 0
        · simp [handleWrite, hro, hav]
        · simp [handleWrite, hro, hav, h]

/-- Witness for the amended C7 at a concrete admitted extent Write. -/
theorem handleWrite_outcome_recording_witness :
    (handleWrite 4 ⟨PartitionStatus.readWrite, 5⟩
        ⟨Opcode.opWrite, StoreMode.extent, 3, 7, 0, 4, [0, 1, 2, 3], 9⟩
        Option.none).diskErrRecords = [⟨3, WriteFlag, Option.none⟩] :=
  (handleWrite_outcome_recording 4 ⟨PartitionStatus.readWrite, 5⟩
      ⟨Opcode.opWrite, StoreMode.extent, 3, 7, 0, 4, [0, 1, 2, 3], 9⟩
      Option.none).1 (by decide) (by decide) (Or.inr rfl)

/-- C7 counterexample: a Write request against a ReadOnly partition is
rejected before either store branch, so it produces zero recordings in
the disk error counter, not exactly one — refuting the claim that every
Write request, whatever its result, produces exactly one recording. -/
theorem handleWrite_outcome_recording_cex :
    ¬ (handleWrite 4 ⟨PartitionStatus.readOnly, 5⟩
        ⟨Opcode.opWrite, StoreMode.extent, 3, 7, 0, 4, [0, 1, 2, 3], 9⟩
        Option.none).diskErrRecords.length = 1 := by decide

/-- C8: a CreateFile that passes admission fails with
`StoreTypeMismatch` when the store mode is Blob, for any payload; in
Extent mode it creates the extent with an inode hint equal to the
big-endian 64-bit integer formed from the first 8 payload bytes when
the payload has at least 8 bytes (with `Size` matching the payload
length, per the packet invariant), and zero otherwise. -/
theorem createFile_store_mode_routing (p : DataPartitionState) (pkg : Packet)
    (createRes : Option String) (hro : p.status ≠ PartitionStatus.readOnly)
    (hav : 0 < p.available) (hwf : pkg.size = pkg.data.length) :
    (pkg.storeMode = StoreMode.blob →
      (handleCreateFile p pkg createRes).reply =
        Reply.errorBody LogCreateFile
          (DNErr.annotated (DNErr.annotated DNErr.storeTypeMismatch)) ∧
      (handleCreateFile p pkg createRes).storeOps = []) ∧
    (pkg.storeMode = StoreMode.extent →
      (handleCreateFile p pkg createRes).storeOps =
        [StoreOp.createExtent pkg.fileID
          (if 8 ≤ pkg.data.length then beUint64 (pkg.data.take 8) else 0) false]) := by
  have hav2 : ¬ p.available ≤ 0 := by omega
  constructor
  · intro h
    simp [handleCreateFile, hro, hav2, h]
  · intro h
    simp [handleCreateFile, hro, hav2, h, hwf, and_self]

/-- Witness for C8: a concrete 8-byte payload yields the big-endian
inode hint 258. -/
theorem createFile_store_mode_routing_witness :
    (handleCreateFile ⟨PartitionStatus.readWrite, 9⟩
        ⟨Opcode.opCreateFile, StoreMode.extent, 1, 7, 0, 8, [0, 0, 0, 0, 0, 0, 1, 2], 0⟩
        Option.none).storeOps = [StoreOp.createExtent 7 258 false] := by
  have h := (createFile_store_mode_routing ⟨PartitionStatus.readWrite, 9⟩
      ⟨Opcode.opCreateFile, StoreMode.extent, 1, 7, 0, 8, [0, 0, 0, 0, 0, 0, 1, 2], 0⟩
      Option.none (by decide) (by decide) (by decide)).2 rfl
  rw [h]
  decide

/-- C1: for a repair-read request with a well-formed payload, letting
localOid be the last object id the blob store reports for the blob
file: if localOid < endObj the handler packs an error reply whose
message embeds the task description and localOid (the `repairShort`
value carries exactly those) and makes no `syncData` call; if
localOid is at least endObj (the boundary localOid = endObj included)
it invokes exactly one transfer of the object range
[startObj, localOid] over the same connection. -/
theorem blobFileRepairRead_gate (decoded : Except String RepairBlobFileTask)
    (getLastOid : Nat → Nat) (syncRes : Option String) (task : RepairBlobFileTask)
    (hdec : decoded = Except.ok task) :
    (getLastOid (u32 task.blobFileId) < task.endObj →
      (handleBlobFileRepairRead decoded getLastOid syncRes).reply =
        Reply.errorBody ActionFollowerRequireBlobFileRepairCmd
          (DNErr.annotated
            (DNErr.repairShort task (getLastOid (u32 task.blobFileId)))) ∧
      (handleBlobFileRepairRead decoded getLastOid syncRes).syncDataCalls = []) ∧
    (task.endObj ≤ getLastOid (u32 task.blobFileId) →
      (handleBlobFileRepairRead decoded getLastOid syncRes).syncDataCalls =
        [(u32 task.blobFileId, task.startObj, getLastOid (u32 task.blobFileId))]) := by
  subst hdec
  constructor
  · intro h
    simp [handleBlobFileRepairRead, h]
  · intro h
    have h2 : ¬ getLastOid (u32 task.blobFileId) < task.endObj := by omega
    cases syncRes <;> simp [handleBlobFileRepairRead, h2]

/-- Witness for C1 at the boundary case localOid = endObj. -/
theorem blobFileRepairRead_gate_witness :
    (handleBlobFileRepairRead (Except.ok ⟨5, 1, 10⟩) (fun _ => 10)
        Option.none).syncDataCalls = [(5, 1, 10)] := by
  have h := (blobFileRepairRead_gate (Except.ok ⟨5, 1, 10⟩) (fun _ => 10)
      Option.none ⟨5, 1, 10⟩ rfl).2 (by decide)
  rw [h]
  decide

/-- C9: for a DeleteDataPartition task whose embedded request decodes,
the partition id is removed from the partition space unconditionally
(the space afterwards is the old space with the id filtered out,
whether or not it was present) and the asynchronous response status is
Success; the synchronous reply is Ok for every input task. -/
theorem deleteDataPartition_unconditional (sp : SpaceState) (task : AdminTask)
    (r : DeleteDataPartitionRequest)
    (hop : task.opCode = Opcode.opDeleteDataPartition)
    (hreq : task.request = some r) :
    (∀ sp2 task2, (handleDeleteDataPartition sp2 task2).syncReply = Reply.ok) ∧
    (handleDeleteDataPartition sp task).space.partitions =
      sp.partitions.filter (fun x => x ≠ u32 r.partitionId) ∧
    (handleDeleteDataPartition sp task).respStatus = TaskStatus.success := by
  refine ⟨?_, ?_, ?_⟩
  · intro sp2 task2
    by_cases h : task2.opCode = Opcode.opDeleteDataPartition
    · cases hr2 : task2.request <;> simp [handleDeleteDataPartition, h, hr2]
    · simp [handleDeleteDataPartition, h]
  · simp [handleDeleteDataPartition, hop, hreq, SpaceState.deletePartition]
  · simp [handleDeleteDataPartition, hop, hreq]

/-- Witness for C9: deleting an id not resident in the space still
responds Success and leaves the space unchanged. -/
theorem deleteDataPartition_unconditional_witness :
    (handleDeleteDataPartition ⟨[5, 6]⟩
        ⟨Opcode.opDeleteDataPartition, some ⟨3⟩⟩).respStatus = TaskStatus.success ∧
    (handleDeleteDataPartition ⟨[5, 6]⟩
        ⟨Opcode.opDeleteDataPartition, some ⟨3⟩⟩).space.partitions = [5, 6] := by
  have h := deleteDataPartition_unconditional ⟨[5, 6]⟩
      ⟨Opcode.opDeleteDataPartition, some ⟨3⟩⟩ ⟨3⟩ rfl rfl
  refine ⟨h.2.2, ?_⟩
  rw [h.2.1]
  decide

/-- C10: a Write that passes admission and a MarkDelete whose store
mode is neither Blob nor Extent fall through their mode switches with a
nil error: no store operation, no disk error recording, no pool return,
and an Ok reply. -/
theorem storeMode_fallthrough (blockSize : Nat) (p : DataPartitionState)
    (pkg : Packet) (res : Option String)
    (hmode : pkg.storeMode = StoreMode.other)
    (hro : p.status ≠ PartitionStatus.readOnly) (hav : 0 < p.available) :
    handleWrite blockSize p pkg res = ⟨Reply.ok, [], [], 0⟩ ∧
    handleMarkDelete p pkg res = ⟨Reply.ok, [], [], 0⟩ := by
  have hav2 : ¬ p.available ≤ 0 := by omega
  constructor
  · simp [handleWrite, hro, hav2, hmode]
  · simp [handleMarkDelete, hmode]

/-- Unfolding of `streamAllOkFrames` at zero remaining size. -/
theorem streamAllOkFrames_zero (C : Nat) (hC : 0 < C) (offset : Int) :
    streamAllOkFrames C hC offset 0 = [] := by
  rw [streamAllOkFrames]
  simp

/-- Unfolding of `streamAllOkFrames` at a positive remaining size. -/
theorem streamAllOkFrames_cons (C : Nat) (hC : 0 < C) (offset : Int) (S : Nat)
    (h : S ≠ 0) :
    streamAllOkFrames C hC offset S =
      Frame.data offset (min S C) ::
        streamAllOkFrames C hC (offset + (min S C : Int)) (S - min S C) := by
  rw [streamAllOkFrames]
  exact dif_neg h

/-- The all-success frame sequence has exactly the ceiling of S over C
frames. -/
theorem streamAllOkFrames_length (C : Nat) (hC : 0 < C) (S : Nat) :
    ∀ offset : Int, (streamAllOkFrames C hC offset S).length = (S + C - 1) / C := by
  induction S using Nat.strong_induction_on with
  | _ S ih =>
    intro offset
    by_cases h : S = 0
    · subst h
      rw [streamAllOkFrames_zero]
      simp [Nat.div_eq_of_lt (show C - 1 < C by omega)]
    · rw [streamAllOkFrames_cons C hC offset S h, List.length_cons,
        ih (S - min S C) (by omega)]
      have hr : S + C - 1 = (S - 1) + C := by omega
      rw [hr, Nat.add_div_right _ hC]
      by_cases hc : S ≤ C
      · have hm : min S C = S := by omega
        rw [hm]
        have he : S - S + C - 1 = C - 1 := by omega
        rw [he, Nat.div_eq_of_lt (show C - 1 < C by omega),
          Nat.div_eq_of_lt (show S - 1 < C by omega)]
      · have hm : min S C = C := by omega
        rw [hm]
        have he : S - C + C - 1 = S - 1 := by omega
        rw [he]

/-- The payload sizes of the all-success frame sequence sum to S: the
loop terminates exactly when the remaining size reaches zero. -/
theorem streamAllOkFrames_sum (C : Nat) (hC : 0 < C) (S : Nat) :
    ∀ offset : Int, ((streamAllOkFrames C hC offset S).map frameSize).sum = S := by
  induction S using Nat.strong_induction_on with
  | _ S ih =>
    intro offset
    by_cases h : S = 0
    · subst h
      rw [streamAllOkFrames_zero]
      rfl
    · rw [streamAllOkFrames_cons C hC offset S h, List.map_cons, List.sum_cons,
        ih (S - min S C) (by omega)]
      simp only [frameSize]
      omega

/-- Every frame of the all-success sequence is a data frame whose
offset is the request offset plus the sum of the payload sizes of the
preceding frames and whose payload size is the minimum of the remaining
size and C. -/
theorem streamAllOkFrames_getElem (C : Nat) (hC : 0 < C) :
    ∀ i : Nat, ∀ S : Nat, ∀ offset : Int,
      i < (streamAllOkFrames C hC offset S).length →
      (streamAllOkFrames C hC offset S)[i]? =
        some (Frame.data
          (offset +
            ((((streamAllOkFrames C hC offset S).take i).map frameSize).sum : Int))
          (min (S - (((streamAllOkFrames C hC offset S).take i).map frameSize).sum)
            C)) := by
  intro i
  induction i with
  | zero =>
      intro S offset h
      have hS : S ≠ 0 := by
        intro h0
        subst h0
        rw [streamAllOkFrames_zero] at h
        simp at h
      rw [streamAllOkFrames_cons C hC offset S hS]
      simp
  | succ i ihi =>
      intro S offset h
      have hS : S ≠ 0 := by
        intro h0
        subst h0
        rw [streamAllOkFrames_zero] at h
        simp at h
      rw [streamAllOkFrames_cons C hC offset S hS] at h ⊢
      simp only [List.getElem?_cons_succ, List.length_cons] at h ⊢
      rw [ihi (S - min S C) (offset + (min S C : Int)) (by omega)]
      simp only [List.take_succ_cons, List.map_cons, List.sum_cons, Option.some.injEq,
        Frame.data.injEq, frameSize]
      constructor
      · push_cast
        ring
      · omega

/-- Every frame of the all-success sequence has a positive payload of
at most C bytes. -/
theorem streamAllOkFrames_size_bounds (C : Nat) (hC : 0 < C) (S : Nat) :
    ∀ offset : Int, ∀ f ∈ streamAllOkFrames C hC offset S,
      0 < frameSize f ∧ frameSize f ≤ C := by
  induction S using Nat.strong_induction_on with
  | _ S ih =>
    intro offset f hf
    by_cases h : S = 0
    · subst h
      rw [streamAllOkFrames_zero] at hf
      simp at hf
    · rw [streamAllOkFrames_cons C hC offset S h] at hf
      rcases List.mem_cons.mp hf with hf | hf
      · subst hf
        simp [frameSize]
        omega
      · exact ih (S - min S C) (by omega) _ f hf

/-- When every store read and every connection write succeeds, the
stream-read loop sends exactly the all-success frame sequence, every
attempted frame is sent, the pool checkouts and returns both equal the
number of full-block frames, and the connection is not closed. -/
theorem streamLoop_allOk (C : Nat) (hC : 0 < C)
    (readRes : Int → Nat → Option String) (writeOk : Nat → Bool)
    (hr : ∀ o n, readRes o n = Option.none) (hw : ∀ k, writeOk k = true) (S : Nat) :
    ∀ offset : Int, ∀ a : Nat,
      streamLoop C hC readRes writeOk S offset a =
        ⟨streamAllOkFrames C hC offset S, streamAllOkFrames C hC offset S,
         countFull C (streamAllOkFrames C hC offset S),
         countFull C (streamAllOkFrames C hC offset S), false⟩ := by
  induction S using Nat.strong_induction_on with
  | _ S ih =>
    intro offset a
    rw [streamLoop]
    by_cases h : S = 0
    · subst h
      rw [streamAllOkFrames_zero]
      simp [countFull]
    · rw [dif_neg h]
      rw [hr offset (min S C)]
      simp only [hw, if_true]
      rw [ih (S - min S C) (by omega)]
      rw [streamAllOkFrames_cons C hC offset S h]
      simp [countFull, frameSize]

/-- Structure of an arbitrary stream-read execution: pool returns never
exceed pool checkouts, and either every attempted frame was sent and
the connection stays open, or the final attempted frame is the single
failed transmission (nothing is attempted after it) and the connection
is closed exactly when that frame was a data frame. -/
theorem streamLoop_structure (C : Nat) (hC : 0 < C)
    (readRes : Int → Nat → Option String) (writeOk : Nat → Bool) (S : Nat) :
    ∀ offset : Int, ∀ a : Nat,
      (streamLoop C hC readRes writeOk S offset a).poolPuts ≤
        (streamLoop C hC readRes writeOk S offset a).poolGets ∧
      (((streamLoop C hC readRes writeOk S offset a).attempts =
          (streamLoop C hC readRes writeOk S offset a).sent ∧
        (streamLoop C hC readRes writeOk S offset a).connClosed = false) ∨
       ∃ f, (streamLoop C hC readRes writeOk S offset a).attempts =
              (streamLoop C hC readRes writeOk S offset a).sent ++ [f] ∧
            (streamLoop C hC readRes writeOk S offset a).connClosed =
              frameIsData f) := by
  induction S using Nat.strong_induction_on with
  | _ S ih =>
    intro offset a
    rw [streamLoop]
    by_cases h : S = 0
    · simp [h]
    · rw [dif_neg h]
      cases hread : readRes offset (min S C) with
      | some e =>
          cases hwk : writeOk a with
          | true =>
              simp
          | false =>
              simp [frameIsData]
      | none =>
          cases hwk : writeOk a with
          | true =>
              obtain ⟨hle, hd⟩ := ih (S - min S C) (by omega)
                  (offset + (min S C : Int)) (a + 1)
              constructor
              · simp only [if_true]
                omega
              · rcases hd with ⟨ha, hc⟩ | ⟨f, ha, hc⟩
                · exact Or.inl ⟨by simp [ha], by simp [hc]⟩
                · exact Or.inr ⟨f, by simp [ha], by simp [hc]⟩
          | false =>
              simp [frameIsData]

/-- C3: for a StreamRead of size S > 0 on which every store read and
every connection write succeed, the handler sends exactly
ceil(S over C) frames (all attempted frames are sent and the connection
stays open), the frame payload sizes sum to S so the loop stops exactly
at remaining zero, each frame has positive size at most C, and frame i
is a data frame whose read offset is the request offset plus the sum of
the preceding frame sizes and whose size is the minimum of the
remaining bytes and the chunk bound C (so sizes are C except a possibly
smaller final frame, with no gaps or overlaps). -/
theorem streamRead_chunking (C : Nat) (hC : 0 < C)
    (readRes : Int → Nat → Option String) (writeOk : Nat → Bool) (request : Packet)
    (hS : 0 < request.size) (hr : ∀ o n, readRes o n = Option.none)
    (hw : ∀ k, writeOk k = true) :
    (handleStreamRead C hC readRes writeOk request).sent.length =
      (request.size + C - 1) / C ∧
    (((handleStreamRead C hC readRes writeOk request).sent.map frameSize).sum =
      request.size) ∧
    (∀ i, i < (handleStreamRead C hC readRes writeOk request).sent.length →
      (handleStreamRead C hC readRes writeOk request).sent[i]? =
        some (Frame.data
          (request.offset +
            ((((handleStreamRead C hC readRes writeOk request).sent.take i).map
                frameSize).sum : Int))
          (min (request.size -
              (((handleStreamRead C hC readRes writeOk request).sent.take i).map
                frameSize).sum) C))) ∧
    (∀ f ∈ (handleStreamRead C hC readRes writeOk request).sent,
      0 < frameSize f ∧ frameSize f ≤ C) ∧
    (handleStreamRead C hC readRes writeOk request).attempts =
      (handleStreamRead C hC readRes writeOk request).sent ∧
    (handleStreamRead C hC readRes writeOk request).connClosed = false := by
  have hall := streamLoop_allOk C hC readRes writeOk hr hw request.size
      request.offset 0
  unfold handleStreamRead
  rw [hall]
  exact ⟨streamAllOkFrames_length C hC request.size request.offset,
    streamAllOkFrames_sum C hC request.size request.offset,
    fun i hi => streamAllOkFrames_getElem C hC i request.size request.offset hi,
    streamAllOkFrames_size_bounds C hC request.size request.offset,
    rfl, rfl⟩

/-- Witness for C3: size 5 with chunk bound 2 yields 3 frames summing
to 5. -/
theorem streamRead_chunking_witness :
    (handleStreamRead 2 (by decide) (fun _ _ => Option.none) (fun _ => true)
        ⟨Opcode.opStreamRead, StoreMode.extent, 1, 9, 0, 5, [], 0⟩).sent.length = 3 ∧
    ((handleStreamRead 2 (by decide) (fun _ _ => Option.none) (fun _ => true)
        ⟨Opcode.opStreamRead, StoreMode.extent, 1, 9, 0, 5, [], 0⟩).sent.map
      frameSize).sum = 5 := by
  have h := streamRead_chunking 2 (by decide) (fun _ _ => Option.none)
      (fun _ => true) ⟨Opcode.opStreamRead, StoreMode.extent, 1, 9, 0, 5, [], 0⟩
      (by decide) (fun _ _ => rfl) (fun _ => rfl)
  exact ⟨h.1, h.2.1⟩

/-- C4 (amended): in a stream read where every store read and every
connection write succeed, pooled checkouts are returned exactly once
each (returns equal checkouts); in every stream-read execution returns
never exceed checkouts (no buffer is returned twice, and each return
follows the successful transmission of its frame); in an Extent-mode
Write that passes admission the payload buffer is returned to the pool
exactly once when the store write succeeded, the opcode is Write and
the size is exactly one full block, and zero times otherwise.  On
stream-read error paths (store-read failure or transmission failure)
the checked-out buffer is dropped, not returned. -/
theorem bufferPool_pairing_amended (C : Nat) (hC : 0 < C)
    (readRes : Int → Nat → Option String) (writeOk : Nat → Bool) (request : Packet)
    (blockSize : Nat) (p : DataPartitionState) (pkg : Packet)
    (writeRes : Option String) :
    ((∀ o n, readRes o n = Option.none) → (∀ k, writeOk k = true) →
      (handleStreamRead C hC readRes writeOk request).poolPuts =
        (handleStreamRead C hC readRes writeOk request).poolGets) ∧
    ((handleStreamRead C hC readRes writeOk request).poolPuts ≤
      (handleStreamRead C hC readRes writeOk request).poolGets) ∧
    (pkg.storeMode = StoreMode.extent → p.status ≠ PartitionStatus.readOnly →
      0 < p.available →
      (handleWrite blockSize p pkg writeRes).poolPuts =
        (if writeRes = Option.none ∧ pkg.opcode = Opcode.opWrite ∧
            pkg.size = blockSize then 1 else 0)) := by
  refine ⟨?_, ?_, ?_⟩
  · intro hr hw
    unfold handleStreamRead
    rw [streamLoop_allOk C hC readRes writeOk hr hw request.size request.offset 0]
  · exact (streamLoop_structure C hC readRes writeOk request.size
      request.offset 0).1
  · intro hm h1 h2
    have hav : ¬ p.available ≤ 0 := by omega
    simp [handleWrite, h1, hav, hm]

/-- Witness for the amended C4 at a concrete all-success stream read. -/
theorem bufferPool_pairing_amended_witness :
    (handleStreamRead 2 (by decide) (fun _ _ => Option.none) (fun _ => true)
        ⟨Opcode.opStreamRead, StoreMode.extent, 1, 9, 0, 5, [], 0⟩).poolPuts =
      (handleStreamRead 2 (by decide) (fun _ _ => Option.none) (fun _ => true)
        ⟨Opcode.opStreamRead, StoreMode.extent, 1, 9, 0, 5, [], 0⟩).poolGets :=
  (bufferPool_pairing_amended 2 (by decide) (fun _ _ => Option.none) (fun _ => true)
      ⟨Opcode.opStreamRead, StoreMode.extent, 1, 9, 0, 5, [], 0⟩ 4
      ⟨PartitionStatus.readWrite, 5⟩
      ⟨Opcode.opWrite, StoreMode.extent, 1, 2, 0, 4, [], 0⟩ Option.none).1
    (fun _ _ => rfl) (fun _ => rfl)

/-- C4 counterexample: a stream read whose single full-block chunk hits
a store-read failure checks one buffer out of the pool and returns
none — the checked-out buffer is not returned exactly once on this
error path, refuting the pairing claim as stated. -/
theorem bufferPool_pairing_cex :
    (handleStreamRead 1 Nat.one_pos (fun _ _ => some "disk io error")
        (fun _ => true)
        ⟨Opcode.opStreamRead, StoreMode.extent, 1, 9, 0, 1, [], 0⟩).poolGets = 1 ∧
    (handleStreamRead 1 Nat.one_pos (fun _ _ => some "disk io error")
        (fun _ => true)
        ⟨Opcode.opStreamRead, StoreMode.extent, 1, 9, 0, 1, [], 0⟩).poolPuts = 0 := by
  unfold handleStreamRead
  rw [streamLoop]
  simp

/-- C5 (amended): when a frame transmission fails, the stream-read
handler stops: the failed frame is the last attempted one, no retry and
no further frames follow; the handler closes the connection exactly
when the failed frame was a data frame — a failed transmission of the
terminal error frame returns without closing the connection. -/
theorem streamRead_abort_on_write_failure (C : Nat) (hC : 0 < C)
    (readRes : Int → Nat → Option String) (writeOk : Nat → Bool) (request : Packet)
    (hfail : (handleStreamRead C hC readRes writeOk request).attempts ≠
      (handleStreamRead C hC readRes writeOk request).sent) :
    ∃ f, (handleStreamRead C hC readRes writeOk request).attempts =
        (handleStreamRead C hC readRes writeOk request).sent ++ [f] ∧
      (handleStreamRead C hC readRes writeOk request).connClosed = frameIsData f := by
  have h := (streamLoop_structure C hC readRes writeOk request.size
      request.offset 0).2
  rcases h with ⟨ha, _⟩ | h
  · exact absurd ha hfail
  · exact h

/-- Witness for the amended C5: a failed data-frame transmission leaves
the failed frame as the sole attempt and closes the connection. -/
theorem streamRead_abort_on_write_failure_witness :
    ∃ f, (handleStreamRead 1 Nat.one_pos (fun _ _ => Option.none) (fun _ => false)
        ⟨Opcode.opStreamRead, StoreMode.extent, 1, 9, 0, 1, [], 0⟩).attempts =
        (handleStreamRead 1 Nat.one_pos (fun _ _ => Option.none) (fun _ => false)
          ⟨Opcode.opStreamRead, StoreMode.extent, 1, 9, 0, 1, [], 0⟩).sent ++ [f] ∧
      (handleStreamRead 1 Nat.one_pos (fun _ _ => Option.none) (fun _ => false)
        ⟨Opcode.opStreamRead, StoreMode.extent, 1, 9, 0, 1, [], 0⟩).connClosed =
        frameIsData f := by
  apply streamRead_abort_on_write_failure
  unfold handleStreamRead
  rw [streamLoop]
  simp

/-- C5 counterexample: when the store read fails and the transmission
of the resulting error frame also fails, the handler logs and returns
without calling Close — a failed frame transmission after which the
connection is not closed, refuting the claim that the connection is
closed regardless of whether the failed frame was a data frame or an
error frame. -/
theorem streamRead_abort_cex :
    (handleStreamRead 1 Nat.one_pos (fun _ _ => some "disk io error")
        (fun _ => false)
        ⟨Opcode.opStreamRead, StoreMode.extent, 1, 9, 0, 1, [], 0⟩).sent.length <
      (handleStreamRead 1 Nat.one_pos (fun _ _ => some "disk io error")
        (fun _ => false)
        ⟨Opcode.opStreamRead, StoreMode.extent, 1, 9, 0, 1, [], 0⟩).attempts.length ∧
    (handleStreamRead 1 Nat.one_pos (fun _ _ => some "disk io error")
        (fun _ => false)
        ⟨Opcode.opStreamRead, StoreMode.extent, 1, 9, 0, 1, [], 0⟩).connClosed =
      false := by
  unfold handleStreamRead
  rw [streamLoop]
  simp

/-- Witness for C10 at a concrete unknown-store-mode Write. -/
theorem storeMode_fallthrough_witness :
    handleWrite 4 ⟨PartitionStatus.readWrite, 5⟩
      ⟨Opcode.opWrite, StoreMode.other, 1, 2, 0, 3, [1, 2, 3], 0⟩ Option.none =
      ⟨Reply.ok, [], [], 0⟩ :=
  (storeMode_fallthrough 4 ⟨PartitionStatus.readWrite, 5⟩
      ⟨Opcode.opWrite, StoreMode.other, 1, 2, 0, 3, [1, 2, 3], 0⟩ Option.none rfl
      (by decide) (by decide)).1

end Containerfs
